import Mathlib

/-!
Verification development for the Veloo offer-generation backend
(src/app/generator.py, src/app/schema.py, src/app/database.py).

The Python data model and the orchestration functions are shallowly
embedded as executable Lean definitions.  External collaborators (the
LLM provider and the SQL storage layer) are passed in as explicit
function parameters, so each theorem quantifies over every possible
behaviour of those collaborators.  Python float fields are rendered as
rationals (the code performs no arithmetic on them), Python date values
as abstract strings, and Python dicts as association lists.
-/

namespace Veloo

/-! ## Data model (src/app/schema.py, app variant) -/

/-- Mirrors class Materials of src/app/schema.py: six required string
fields forming one bill-of-materials line. -/
structure Materials where
  category : String
  material : String
  price : String
  description : String
  unit : String
  quantity : String
deriving DecidableEq, Repr

/-- Mirrors class PriceDetail of src/app/schema.py: three float fields. -/
structure PriceDetail where
  Materials : ℚ
  Labor : ℚ
  Total : ℚ
deriving DecidableEq, Repr

/-- Mirrors class offerRequest of src/app/schema.py.  The date-typed
project_start is abstracted as a string value. -/
structure OfferRequest where
  customer_name : String
  phone_number : String
  address : String
  project_start : String
  select_task : String
  explaination : String
  user_id : String
deriving DecidableEq, Repr

/-- The status enum of Finaloffer: Literal of Pending, Accepted, Done. -/
inductive OfferStatus where
  | Pending
  | Accepted
  | Done
deriving DecidableEq, Repr

/-- Mirrors class Finaloffer of src/app/schema.py.  Note that the
Python model declares exactly these fields; in particular there is no
customer_email field (see finalofferFieldNames). -/
structure Finaloffer where
  customer_name : String
  phone_number : String
  address : String
  task_description : String
  bill_of_materials : List Materials
  time : String
  resource : String
  status : OfferStatus
  price : PriceDetail
  project_start : String
  materials_ordered : Bool
deriving DecidableEq, Repr

/-- The field names declared by class offerRequest in src/app/schema.py,
in declaration order. -/
def offerRequestFieldNames : List String :=
  ["customer_name", "phone_number", "address", "project_start",
   "select_task", "explaination", "user_id"]

/-- The field names declared by class Finaloffer in src/app/schema.py,
in declaration order. -/
def finalofferFieldNames : List String :=
  ["customer_name", "phone_number", "address", "task_description",
   "bill_of_materials", "time", "resource", "status", "price",
   "project_start", "materials_ordered"]

/-- The class names defined at the top level of src/app/schema.py (the
importable names of module app.schema). -/
def appSchemaDefinedClasses : List String :=
  ["PriceDetail", "offerRequest", "Materials", "Finaloffer",
   "UpdateofferRequest", "UpdateStatus", "SaveUpdatedOffer",
   "OfferByDate", "InventoryItem", "InventoryItemUpdate",
   "InventorySearchQuery", "EmailRequest", "EmailResponse", "Email"]

/-- Pydantic attribute access on an offerRequest instance: declared
fields resolve to their values, any other attribute name raises
AttributeError (the model stores only declared fields). -/
def offerRequestAttr (r : OfferRequest) (name : String) : Except String String :=
  if name = "customer_name" then .ok r.customer_name
  else if name = "phone_number" then .ok r.phone_number
  else if name = "address" then .ok r.address
  else if name = "project_start" then .ok r.project_start
  else if name = "select_task" then .ok r.select_task
  else if name = "explaination" then .ok r.explaination
  else if name = "user_id" then .ok r.user_id
  else .error ("AttributeError: offerRequest object has no attribute " ++ name)

/-! ## Inventory rows and the get_inventory_data tool
(src/app/generator.py lines 52-100) -/

/-- One row returned by Database.search_inventory_items: the columns of
the inventory table that get_inventory_data reads via item.get(...). -/
structure InventoryRow where
  id : Option String
  name : String
  category : String
  description : String
  brand : String
  default_price : ℚ
  active : Bool
deriving DecidableEq, Repr

/-- The storage collaborator seen by the tool: search_inventory_items
as a function of (search_term, active, limit); it may raise, which the
Except models. -/
abbrev InventorySearch : Type :=
  String → Bool → Nat → Except String (List InventoryRow)

/-- The dict built for each item in the formatting loop of
get_inventory_data (id, name, category, description, brand,
float default_price, active). -/
def formatItem (it : InventoryRow) : InventoryRow :=
  { id := it.id, name := it.name, category := it.category,
    description := it.description, brand := it.brand,
    default_price := it.default_price, active := it.active }

/-- The JSON object returned by get_inventory_data, as a record of the
keys that may occur; a key absent from the returned dict is none. -/
structure InvResult where
  error : Option String
  message : Option String
  query : Option String
  items_found : Option Nat
  items : List InventoryRow
deriving DecidableEq, Repr

/-- Embeds Generator.get_inventory_data (src/app/generator.py lines
52-100).  The database reference is optional (self.database may be
None); the whole body is guarded by a try/except returning a structured
error payload, so the embedding is a total function. -/
def get_inventory_data (db : Option InventorySearch) (query : String) : InvResult :=
  match db with
  | none =>
      { error := some "Database connection not available",
        message := none, query := none, items_found := none, items := [] }
  | some search =>
      match search query true 50 with
      | .error e =>
          { error := some ("Error fetching inventory data: " ++ e),
            message := none, query := none, items_found := none, items := [] }
      | .ok [] =>
          { error := none,
            message := some ("No inventory items found for query: " ++ query),
            query := none, items_found := none, items := [] }
      | .ok items@(_ :: _) =>
          let formatted := items.map formatItem
          { error := none, message := none, query := some query,
            items_found := some formatted.length, items := formatted }

/-! ## Transcript messages and model responses
(src/app/generator.py lines 125-178 and 383-471) -/

/-- The generate_final_offer tool arguments after json.loads: the keys
the code reads via arguments.get(...), each possibly absent. -/
structure FinalOfferArgs where
  task_description : Option String
  bill_of_materials : Option (List (List (String × String)))
  time : Option String
  materials_cost : Option ℚ
  labor_cost : Option ℚ
  total_cost : Option ℚ
deriving DecidableEq, Repr

deriving instance DecidableEq for Except

/-- A tool call carried by a model response.  The Except models the
json.loads of tool_call.function.arguments, which may raise on
malformed JSON.  For get_inventory_data the payload is the optional
query key (arguments.get defaults it to the empty string). -/
inductive ToolFn where
  | inventory (args : Except String (Option String))
  | finalOfferCall (args : Except String FinalOfferArgs)
deriving DecidableEq, Repr

/-- One entry of response_message.tool_calls. -/
structure ToolCall where
  id : String
  fn : ToolFn
deriving DecidableEq, Repr

/-- One transcript message.  assistantRaw stands for the raw
response_message object appended wholesale when tool calls occur;
toolResult is the role tool message carrying json.dumps of the
inventory payload. -/
inductive ChatMsg where
  | system (content : String)
  | user (content : String)
  | assistant (content : Option String)
  | assistantRaw (content : Option String) (toolCalls : List ToolCall)
  | toolResult (toolCallId : String) (content : InvResult)
deriving DecidableEq, Repr

/-- A chat.completions.create response: choices[0].message, which has
an optional content and a (possibly empty) tool_calls list; the Python
truthiness test on tool_calls treats None and the empty list alike. -/
structure ModelResponse where
  content : Option String
  toolCalls : List ToolCall
deriving DecidableEq, Repr

/-- The system prompt of the one-shot generator (src/app/generator.py
lines 37-50). -/
def system_prompt : String :=
  "You are a professional offer generator assistant. \n" ++
  "        Generate detailed construction/service offers based on project requirements.\n" ++
  "        \n" ++
  "        Your response MUST include ALL of these fields:\n" ++
  "        - task_description: Detailed description of the work to be done\n" ++
  "        - bill_of_materials: Array of materials needed (each with category, material, price, description, unit, quantity)\n" ++
  "        - time: Estimated completion time.\n" ++
  "        - status: Default to \"Pending\"\n" ++
  "        - price: Object with Materials (float), Labor (float), and Total (float)\n" ++
  "        - project_start: Use the exact project start date provided\n" ++
  "        - materials_ordered: Default to false\n" ++
  "        \n" ++
  "        Provide comprehensive bill of materials, accurate time estimates, and realistic pricing.\n" ++
  "        Format your response as a structured offer with all required fields."

/-- The user turn built by generate_offer (src/app/generator.py lines
107-123): an f-string interpolating only project_start, select_task,
explaination and user_id from the request. -/
def genUserInput (r : OfferRequest) : String :=
  "\n" ++
  "            Generate a professional offer for the following project:\n" ++
  "            \n" ++
  "            Project Start Date: " ++ r.project_start ++ "\n" ++
  "            Task Selected: " ++ r.select_task ++ "\n" ++
  "            Additional Details: " ++ r.explaination ++ "\n" ++
  "            User ID: " ++ r.user_id ++ "\n" ++
  "            Project_start: " ++ r.project_start ++ " (MUST use this exact date)\n" ++
  "            Status: \"Pending\"\n" ++
  "            Materials_ordered: false\n" ++
  "            \n" ++
  "            Please provide:\n" ++
  "            1. Detailed task_description based on the task selected and explanation\n" ++
  "            2. Complete bill_of_materials with category, material name, price, description, unit, and quantity\n" ++
  "            3. Time estimate for completion.\n" ++
  "            4. Total price breakdown with Materials, Labor, and Total in the price field\n" ++
  "            "

/-- The initial transcript of generate_offer (lines 126-129): system
prompt followed by the user turn. -/
def genMessages (r : OfferRequest) : List ChatMsg :=
  [ChatMsg.system system_prompt, ChatMsg.user (genUserInput r)]

/-! ## One-shot generation (src/app/generator.py lines 103-199) -/

/-- Modelled from the spec: GeneratedOfferContent is imported by
src/app/generator.py from app.schema yet defined nowhere in the
repository; section 4.3 step 4 of the spec describes the
generation-only output shape as task_description, bill_of_materials,
time, status, price, project_start and materials_ordered, with PII
fields excluded. -/
structure GeneratedOfferContent where
  task_description : String
  bill_of_materials : List Materials
  time : String
  status : OfferStatus
  price : PriceDetail
  project_start : String
  materials_ordered : Bool
deriving DecidableEq, Repr

/-- The LLM provider as seen by generate_offer: the first, tool-enabled
chat.completions.create call and the schema-constrained
beta.chat.completions.parse call, each a function of the transcript
that may raise. -/
structure GenOracle where
  toolPhase : List ChatMsg → Except String ModelResponse
  parsePhase : List ChatMsg → Except String GeneratedOfferContent

/-- The tool loop of generate_offer (lines 147-158): executes each
get_inventory_data call in order, appending a tool-result message per
call; a json.loads failure raises out of the loop; a call to any other
function name is skipped (the loop has no else branch). -/
def genToolLoop (db : Option InventorySearch) :
    List ChatMsg → List ToolCall → Except String (List ChatMsg)
  | msgs, [] => .ok msgs
  | msgs, c :: rest =>
    match c.fn with
    | .inventory (.error e) => .error e
    | .inventory (.ok q) =>
        genToolLoop db
          (msgs ++ [ChatMsg.toolResult c.id (get_inventory_data db (q.getD ""))]) rest
    | .finalOfferCall _ => genToolLoop db msgs rest

/-- The local merge step of generate_offer (lines 181-194): the
Finaloffer constructor call, whose keyword arguments are evaluated in
source order; customer_email and resource are read off the offerRequest
instance, which does not declare them. -/
def mergeOffer (r : OfferRequest) (gc : GeneratedOfferContent) : Except String Finaloffer := do
  let cn ← offerRequestAttr r "customer_name"
  let pn ← offerRequestAttr r "phone_number"
  let ad ← offerRequestAttr r "address"
  let _ce ← offerRequestAttr r "customer_email"
  let rs ← offerRequestAttr r "resource"
  .ok { customer_name := cn, phone_number := pn, address := ad,
        task_description := gc.task_description,
        bill_of_materials := gc.bill_of_materials,
        time := gc.time, resource := rs, status := gc.status,
        price := gc.price, project_start := gc.project_start,
        materials_ordered := gc.materials_ordered }

/-- Embeds Generator.generate_offer (src/app/generator.py lines
103-199).  Returns the outcome together with the number of model calls
performed (a call that raises still counts as performed).  Every
exception is wrapped by the enclosing try/except into the single
generation-failure message. -/
def generate_offer (db : Option InventorySearch) (r : OfferRequest)
    (oracle : GenOracle) : Except String Finaloffer × Nat :=
  match oracle.toolPhase (genMessages r) with
  | .error e => (.error ("Error generating offer: " ++ e), 1)
  | .ok resp =>
    if resp.toolCalls.isEmpty then
      match oracle.parsePhase (genMessages r) with
      | .error e => (.error ("Error generating offer: " ++ e), 2)
      | .ok gc => ((mergeOffer r gc).mapError (fun e => "Error generating offer: " ++ e), 2)
    else
      match genToolLoop db
          (genMessages r ++ [ChatMsg.assistantRaw resp.content resp.toolCalls])
          resp.toolCalls with
      | .error e => (.error ("Error generating offer: " ++ e), 1)
      | .ok msgs2 =>
        match oracle.parsePhase msgs2 with
        | .error e => (.error ("Error generating offer: " ++ e), 2)
        | .ok gc => ((mergeOffer r gc).mapError (fun e => "Error generating offer: " ++ e), 2)

/-! ## Chat sessions (src/app/generator.py lines 263-475) -/

/-- The chat system prompt (src/app/generator.py lines 338-355). -/
def chat_system_prompt : String :=
  "You are a professional offer generator assistant for construction and service projects.\n\n" ++
  "Your role is to have a conversation with the user to understand their project requirements before generating an offer.\n\n" ++
  "IMPORTANT GUIDELINES:\n" ++
  "1. If the initial request of the user is vague or missing important details, ask clarifying questions.\n" ++
  "2. Ask about: project scope, area size, preferred materials, quality level, timeline preferences, etc.\n" ++
  "3. Keep questions concise and focused - ask 1-2 questions at a time.\n" ++
  "4. When you have enough information to create a comprehensive offer, call the generate_final_offer tool.\n" ++
  "5. You can use get_inventory_data to check available materials and pricing.\n\n" ++
  "DO NOT generate an offer until you have sufficient details. It is better to ask questions than to make assumptions.\n\n" ++
  "When ready to generate the offer, call generate_final_offer with:\n" ++
  "- task_description: Detailed description of the work\n" ++
  "- bill_of_materials: Complete list of materials with prices\n" ++
  "- time: Estimated completion time\n" ++
  "- materials_cost, labor_cost, total_cost: Price breakdown"

/-- One chat session record: the message transcript, the customer_info
dict and the project_start value stored on session creation. -/
structure Session where
  messages : List ChatMsg
  customer_info : List (String × String)
  project_start : Option String
deriving DecidableEq, Repr

/-- The _chat_sessions dict, as an association list keyed by session
id.  Python dict keys are unique; insertS overwrites in place and
eraseS removes every binding of the key. -/
abbrev SessionStore : Type := List (String × Session)

/-- Dict lookup: first binding of the key. -/
def lookupS : SessionStore → String → Option Session
  | [], _ => none
  | (k, v) :: rest, sid => if k = sid then some v else lookupS rest sid

/-- Dict assignment: overwrite the first binding in place, else append. -/
def insertS : SessionStore → String → Session → SessionStore
  | [], sid, s => [(sid, s)]
  | (k, v) :: rest, sid, s =>
      if k = sid then (sid, s) :: rest else (k, v) :: insertS rest sid s

/-- Dict deletion: remove every binding of the key. -/
def eraseS : SessionStore → String → SessionStore
  | [], _ => []
  | (k, v) :: rest, sid =>
      if k = sid then eraseS rest sid else (k, v) :: eraseS rest sid

/-- The LLM provider as seen by chat_for_offer: the tool-enabled
decision call and the follow-up call issued after an inventory
round-trip; the follow-up yields choices[0].message.content, which may
be null. -/
structure ChatOracle where
  decide : List ChatMsg → Except String ModelResponse
  followUp : List ChatMsg → Except String (Option String)

/-- The value returned by a successful chat_for_offer call: either a
clarification message dict or a final-offer dict. -/
inductive ChatResult where
  | message (m : Option String)
  | offer (o : Finaloffer)
deriving DecidableEq, Repr

/-- The outcome of one chat_for_offer call: the result or raised error,
the _chat_sessions store after the call, and the number of model calls
performed during the turn (a call that raises still counts). -/
structure TurnOut where
  result : Except String ChatResult
  store : SessionStore
  modelCalls : Nat
deriving Repr

/-- Python truthiness of the customer_info argument: None and the empty
dict are both falsy. -/
def dictFalsy : Option (List (String × String)) → Bool
  | none => true
  | some [] => true
  | some (_ :: _) => false

/-- Dict .get with default empty string, as used on the stored
customer_info. -/
def getStr (d : List (String × String)) (k : String) : String :=
  (((d.find? (fun p => p.1 = k)).map Prod.snd)).getD ""

/-- The session created on the first message of a session id
(src/app/generator.py lines 372-376). -/
def freshSession (ci : List (String × String)) (ps : Option String) : Session :=
  { messages := [ChatMsg.system chat_system_prompt],
    customer_info := ci, project_start := ps }

/-- The session-bootstrap step of chat_for_offer (lines 366-378): an
unknown session id requires a truthy customer_info, else the
session-not-found error is raised; otherwise exactly one fresh session
is stored under the id.  Returns the store after the step and the
session the turn will run on. -/
def chatBootstrap (st : SessionStore) (sid : String)
    (ci : Option (List (String × String))) (ps : Option String) :
    Except String (SessionStore × Session) :=
  match lookupS st sid with
  | some s => .ok (st, s)
  | none =>
      if dictFalsy ci then
        .error "Session expired or not found. Please start a new conversation with customer info."
      else
        let s := freshSession (ci.getD []) ps
        .ok (insertS st sid s, s)

/-- Materials(**mat) on one parsed bill_of_materials entry: every one
of the six required fields must be present, else pydantic raises a
validation error. -/
def mkMaterial (m : List (String × String)) : Except String Materials :=
  match (m.find? (fun p => p.1 = "category")).map Prod.snd,
        (m.find? (fun p => p.1 = "material")).map Prod.snd,
        (m.find? (fun p => p.1 = "price")).map Prod.snd,
        (m.find? (fun p => p.1 = "description")).map Prod.snd,
        (m.find? (fun p => p.1 = "unit")).map Prod.snd,
        (m.find? (fun p => p.1 = "quantity")).map Prod.snd with
  | some c, some mt, some p, some d, some u, some q =>
      .ok { category := c, material := mt, price := p, description := d,
            unit := u, quantity := q }
  | _, _, _, _, _, _ => .error "validation error for Materials"

/-- Builds the Finaloffer from generate_final_offer arguments merged
with the stored customer profile (src/app/generator.py lines 414-439).
The Finaloffer model declares no customer_email field, so the
customer_email keyword passed by the code is evaluated and then
dropped by pydantic; project_start requires a date value, so a session
stored without one makes the construction raise. -/
def buildFinalOffer (args : FinalOfferArgs) (ci : List (String × String))
    (ps : Option String) : Except String Finaloffer := do
  let mats ← (args.bill_of_materials.getD []).mapM mkMaterial
  let price : PriceDetail :=
    { Materials := args.materials_cost.getD 0,
      Labor := args.labor_cost.getD 0,
      Total := args.total_cost.getD 0 }
  let _customerEmailKwarg := getStr ci "customer_email"
  match ps with
  | none => .error "validation error for Finaloffer: project_start"
  | some d =>
      .ok { customer_name := getStr ci "customer_name",
            phone_number := getStr ci "phone_number",
            address := getStr ci "address",
            task_description := args.task_description.getD "",
            bill_of_materials := mats,
            time := args.time.getD "",
            resource := getStr ci "resource",
            status := .Pending,
            price := price,
            project_start := d,
            materials_ordered := false }

/-- The outcome of the chat tool-call loop: all calls processed with
the transcript extended by tool results, or a final offer produced
(returning out of the loop), or an exception with the transcript as
mutated so far. -/
inductive LoopOut where
  | done (msgs : List ChatMsg)
  | offerMade (o : Finaloffer) (msgs : List ChatMsg)
  | errored (msgs : List ChatMsg) (e : String)
deriving Repr

/-- The tool loop of chat_for_offer (lines 399-447): processes
tool calls in order; an inventory call appends its result; a
generate_final_offer call builds the offer and returns immediately,
skipping any remaining calls; any failure raises with the messages
appended so far. -/
def chatToolLoop (db : Option InventorySearch) (ci : List (String × String))
    (ps : Option String) : List ChatMsg → List ToolCall → LoopOut
  | msgs, [] => .done msgs
  | msgs, c :: rest =>
    match c.fn with
    | .inventory (.error e) => .errored msgs e
    | .inventory (.ok q) =>
        chatToolLoop db ci ps
          (msgs ++ [ChatMsg.toolResult c.id (get_inventory_data db (q.getD ""))]) rest
    | .finalOfferCall (.error e) => .errored msgs e
    | .finalOfferCall (.ok args) =>
        match buildFinalOffer args ci ps with
        | .error e => .errored msgs e
        | .ok off => .offerMade off msgs

/-- One chat turn on an existing (or freshly created) session
(src/app/generator.py lines 378-471).  The Python code mutates the
session transcript in place, so the store is updated at every append;
every error exit therefore leaves the messages appended so far in the
caller-visible session. -/
def runChatTurn (db : Option InventorySearch) (st : SessionStore) (sid : String)
    (sess : Session) (message : String) (oracle : ChatOracle) : TurnOut :=
  match oracle.decide (sess.messages ++ [ChatMsg.user message]) with
  | .error e =>
      { result := .error e,
        store := insertS st sid
          { sess with messages := sess.messages ++ [ChatMsg.user message] },
        modelCalls := 1 }
  | .ok resp =>
    if resp.toolCalls.isEmpty then
      { result := .ok (.message resp.content),
        store := insertS st sid
          { sess with messages := sess.messages ++ [ChatMsg.user message]
              ++ [ChatMsg.assistant resp.content] },
        modelCalls := 1 }
    else
      match chatToolLoop db sess.customer_info sess.project_start
          (sess.messages ++ [ChatMsg.user message]
            ++ [ChatMsg.assistantRaw resp.content resp.toolCalls]) resp.toolCalls with
      | .errored msgs e =>
          { result := .error e,
            store := insertS st sid { sess with messages := msgs },
            modelCalls := 1 }
      | .offerMade off _ =>
          { result := .ok (.offer off),
            store := eraseS (insertS st sid
              { sess with messages := sess.messages ++ [ChatMsg.user message]
                  ++ [ChatMsg.assistantRaw resp.content resp.toolCalls] }) sid,
            modelCalls := 1 }
      | .done msgs2 =>
          match oracle.followUp msgs2 with
          | .error e =>
              { result := .error e,
                store := insertS st sid { sess with messages := msgs2 },
                modelCalls := 2 }
          | .ok content =>
              { result := .ok (.message content),
                store := insertS st sid
                  { sess with messages := msgs2 ++ [ChatMsg.assistant content] },
                modelCalls := 2 }

/-- Embeds Generator.chat_for_offer (src/app/generator.py lines
357-475): session bootstrap followed by one turn, with every raised
exception wrapped into the single chat-error message by the enclosing
try/except. -/
def chat_for_offer (db : Option InventorySearch) (st : SessionStore)
    (sid : String) (message : String) (ci : Option (List (String × String)))
    (ps : Option String) (oracle : ChatOracle) : TurnOut :=
  match chatBootstrap st sid ci ps with
  | .error e =>
      { result := .error ("Error in chat for offer: " ++ e),
        store := st, modelCalls := 0 }
  | .ok (st1, sess) =>
      { runChatTurn db st1 sid sess message oracle with
        result := (runChatTurn db st1 sid sess message oracle).result.mapError
          (fun e => "Error in chat for offer: " ++ e) }

/-! ## The materials_ordered toggle (src/app/database.py lines 480-522) -/

/-- One row of the offers table, restricted to the columns the toggle
reads or writes. -/
structure OfferRow where
  materials_ordered : Bool
  updated_at : Nat
deriving DecidableEq, Repr

/-- The offers table keyed by the primary-key id column. -/
abbrev OffersTable : Type := List (String × OfferRow)

/-- SELECT materials_ordered FROM offers WHERE id = x, fetchone. -/
def lookupRow : OffersTable → String → Option OfferRow
  | [], _ => none
  | (k, v) :: rest, oid => if k = oid then some v else lookupRow rest oid

/-- UPDATE offers SET materials_ordered, updated_at WHERE id = x. -/
def updateRow : OffersTable → String → Bool → Nat → OffersTable
  | [], _, _, _ => []
  | (k, v) :: rest, oid, flag, now =>
      if k = oid then
        (k, { materials_ordered := flag, updated_at := now }) :: updateRow rest oid flag now
      else (k, v) :: updateRow rest oid flag now

/-- The JSON payload returned on a successful toggle. -/
structure ToggleResult where
  success : Bool
  offer_id : String
  materials_ordered : Bool
deriving DecidableEq, Repr

/-- Embeds Database.toggle_materials_ordered (src/app/database.py lines
480-522).  A missing offer raises (after rollback, so the table is
unchanged); otherwise the flag is flipped, updated_at is set to the
current time and the commit persists exactly that row. -/
def toggle_materials_ordered (tbl : OffersTable) (now : Nat) (oid : String) :
    OffersTable × Except String ToggleResult :=
  match lookupRow tbl oid with
  | none =>
      (tbl, .error "Error toggling materials_ordered status: offer not found")
  | some row =>
      let ns := !row.materials_ordered
      (updateRow tbl oid ns now,
       .ok { success := true, offer_id := oid, materials_ordered := ns })

/-! ## Helper lemmas -/

/-- The wrapped session-not-found message raised by chat_for_offer. -/
def sessionNotFoundError : String :=
  "Error in chat for offer: Session expired or not found. Please start a new conversation with customer info."

theorem lookupS_insertS_self (st : SessionStore) (sid : String) (s : Session) :
    lookupS (insertS st sid s) sid = some s := by
  induction st with
  | nil => simp [insertS, lookupS]
  | cons p rest ih =>
    obtain ⟨k, v⟩ := p
    by_cases h : k = sid
    · simp [insertS, h, lookupS]
    · simp [insertS, h, lookupS, ih]

theorem lookupS_insertS_ne (st : SessionStore) (sid k : String) (s : Session)
    (h : k ≠ sid) : lookupS (insertS st sid s) k = lookupS st k := by
  induction st with
  | nil => simp [insertS, lookupS, Ne.symm h]
  | cons p rest ih =>
    obtain ⟨k', v⟩ := p
    by_cases h' : k' = sid
    · subst h'
      simp [insertS, lookupS, Ne.symm h]
    · simp only [insertS, if_neg h', lookupS, ih]

theorem lookupS_eraseS_self (st : SessionStore) (sid : String) :
    lookupS (eraseS st sid) sid = none := by
  induction st with
  | nil => simp [eraseS, lookupS]
  | cons p rest ih =>
    obtain ⟨k, v⟩ := p
    by_cases h : k = sid
    · simpa [eraseS, h] using ih
    · simpa [eraseS, lookupS, h] using ih

theorem lookupS_eraseS_ne (st : SessionStore) (sid k : String)
    (h : k ≠ sid) : lookupS (eraseS st sid) k = lookupS st k := by
  induction st with
  | nil => simp [eraseS, lookupS]
  | cons p rest ih =>
    obtain ⟨k', v⟩ := p
    by_cases h' : k' = sid
    · subst h'
      simpa [eraseS, lookupS, Ne.symm h] using ih
    · by_cases h'' : k' = k
      · simp [eraseS, lookupS, h', h'', h]
      · simpa [eraseS, lookupS, h', h''] using ih

theorem mergeOffer_raises (r : OfferRequest) (gc : GeneratedOfferContent) :
    mergeOffer r gc =
      .error "AttributeError: offerRequest object has no attribute customer_email" := rfl

theorem generate_offer_raises (db : Option InventorySearch) (r : OfferRequest)
    (oracle : GenOracle) : ∃ e, (generate_offer db r oracle).1 = Except.error e := by
  unfold generate_offer
  split
  · exact ⟨_, rfl⟩
  · split
    · split
      · exact ⟨_, rfl⟩
      · exact ⟨_, by rw [mergeOffer_raises]; rfl⟩
    · split
      · exact ⟨_, rfl⟩
      · split
        · exact ⟨_, rfl⟩
        · exact ⟨_, by rw [mergeOffer_raises]; rfl⟩

/-! ## Claim theorems: inventory tool -/

/-- C6: the get_inventory_data tool never raises: with no database
reference it returns the structured error payload with empty items;
when the underlying search raises it returns the structured error
payload; on a successful non-empty search it returns the
query/items_found/items payload with items_found equal to the length of
the items list; and the result depends on the search collaborator only
through its value at (query, active = true, limit = 50), i.e. the
search is invoked with active-only filtering and limit 50. -/
theorem inventory_tool_structured :
    (∀ q, get_inventory_data none q =
      { error := some "Database connection not available",
        message := none, query := none, items_found := none, items := [] })
    ∧ (∀ (f : InventorySearch) q e, f q true 50 = .error e →
        get_inventory_data (some f) q =
          { error := some ("Error fetching inventory data: " ++ e),
            message := none, query := none, items_found := none, items := [] })
    ∧ (∀ (f : InventorySearch) q items, f q true 50 = .ok items → items ≠ [] →
        get_inventory_data (some f) q =
          { error := none, message := none, query := some q,
            items_found := some (items.map formatItem).length,
            items := items.map formatItem }
        ∧ (get_inventory_data (some f) q).items_found =
            some (get_inventory_data (some f) q).items.length)
    ∧ (∀ (f g : InventorySearch) q, f q true 50 = g q true 50 →
        get_inventory_data (some f) q = get_inventory_data (some g) q) := by
  refine ⟨fun q => rfl, fun f q e h => ?_, fun f q items h hne => ?_, fun f g q h => ?_⟩
  · simp [get_inventory_data, h]
  · cases items with
    | nil => exact absurd rfl hne
    | cons a l => exact ⟨by simp [get_inventory_data, h], by simp [get_inventory_data, h]⟩
  · simp [get_inventory_data, h]

/-- C6 witness: the theorem applied to concrete search collaborators. -/
theorem inventory_tool_structured_witness :
    get_inventory_data (some (fun _ _ _ => .error "db down")) "pipes" =
      { error := some "Error fetching inventory data: db down",
        message := none, query := none, items_found := none, items := [] } :=
  inventory_tool_structured.2.1 (fun _ _ _ => .error "db down") "pipes" "db down" rfl

/-- C7: a query for which the inventory search returns zero items
yields exactly the no-items message payload with empty items, and no
exception. -/
theorem inventory_no_items_payload (f : InventorySearch) (q : String)
    (h : f q true 50 = .ok []) :
    get_inventory_data (some f) q =
      { error := none,
        message := some ("No inventory items found for query: " ++ q),
        query := none, items_found := none, items := [] } := by
  simp [get_inventory_data, h]

/-- C7 witness: the theorem applied to a search returning no items. -/
theorem inventory_no_items_payload_witness :
    get_inventory_data (some (fun _ _ _ => .ok [])) "gold plating" =
      { error := none,
        message := some "No inventory items found for query: gold plating",
        query := none, items_found := none, items := [] } :=
  inventory_no_items_payload (fun _ _ _ => .ok []) "gold plating" rfl

theorem mapError_ok_iff {α : Type} (f : String → String) (x : Except String α)
    (a : α) : x.mapError f = .ok a ↔ x = .ok a := by
  cases x <;> simp [Except.mapError]

theorem chatToolLoop_done_head (db : Option InventorySearch)
    (ci : List (String × String)) (ps : Option String) (msgs : List ChatMsg)
    (c : ToolCall) (rest : List ToolCall) (out : List ChatMsg)
    (h : chatToolLoop db ci ps msgs (c :: rest) = LoopOut.done out) :
    ∃ q, c.fn = ToolFn.inventory (.ok q) := by
  obtain ⟨cid, fn⟩ := c
  cases fn with
  | inventory args =>
    cases args with
    | error e => simp [chatToolLoop] at h
    | ok q => exact ⟨q, rfl⟩
  | finalOfferCall args =>
    cases args with
    | error e => simp [chatToolLoop] at h
    | ok a =>
      simp only [chatToolLoop] at h
      cases hb : buildFinalOffer a ci ps <;> rw [hb] at h <;> simp at h

theorem chatToolLoop_extends (db : Option InventorySearch)
    (ci : List (String × String)) (ps : Option String) :
    ∀ (calls : List ToolCall) (msgs : List ChatMsg),
      (∀ out, chatToolLoop db ci ps msgs calls = LoopOut.done out →
        ∃ t, out = msgs ++ t)
      ∧ (∀ out e, chatToolLoop db ci ps msgs calls = LoopOut.errored out e →
        ∃ t, out = msgs ++ t) := by
  intro calls
  induction calls with
  | nil =>
    intro msgs
    constructor
    · intro out h
      simp only [chatToolLoop] at h
      exact ⟨[], by simpa using h.symm⟩
    · intro out e h
      simp [chatToolLoop] at h
  | cons c rest ih =>
    intro msgs
    obtain ⟨cid, fn⟩ := c
    cases fn with
    | inventory args =>
      cases args with
      | error e0 =>
        refine ⟨fun out h => ?_, fun out e h => ?_⟩
        · simp [chatToolLoop] at h
        · simp only [chatToolLoop, LoopOut.errored.injEq] at h
          exact ⟨[], by simp [h.1.symm]⟩
      | ok q =>
        refine ⟨fun out h => ?_, fun out e h => ?_⟩
        · simp only [chatToolLoop] at h
          obtain ⟨t, ht⟩ := (ih _).1 out h
          exact ⟨_, by simpa [List.append_assoc] using ht⟩
        · simp only [chatToolLoop] at h
          obtain ⟨t, ht⟩ := (ih _).2 out e h
          exact ⟨_, by simpa [List.append_assoc] using ht⟩
    | finalOfferCall args =>
      cases args with
      | error e0 =>
        refine ⟨fun out h => ?_, fun out e h => ?_⟩
        · simp [chatToolLoop] at h
        · simp only [chatToolLoop, LoopOut.errored.injEq] at h
          exact ⟨[], by simp [h.1.symm]⟩
      | ok a =>
        refine ⟨fun out h => ?_, fun out e h => ?_⟩
        · simp only [chatToolLoop] at h
          cases hb : buildFinalOffer a ci ps <;> rw [hb] at h <;> simp at h
        · simp only [chatToolLoop] at h
          cases hb : buildFinalOffer a ci ps <;> rw [hb] at h
          · simp only [LoopOut.errored.injEq] at h
            exact ⟨[], by simp [h.1.symm]⟩
          · simp at h

theorem runChatTurn_spec (db : Option InventorySearch) (st : SessionStore)
    (sid : String) (sess : Session) (msg : String) (oracle : ChatOracle) :
    ((∃ off, (runChatTurn db st sid sess msg oracle).result = .ok (.offer off))
      ∧ lookupS (runChatTurn db st sid sess msg oracle).store sid = none)
    ∨ ((∀ off, (runChatTurn db st sid sess msg oracle).result ≠ .ok (.offer off))
      ∧ ∃ s suffix,
          lookupS (runChatTurn db st sid sess msg oracle).store sid = some s
          ∧ s.customer_info = sess.customer_info
          ∧ s.project_start = sess.project_start
          ∧ s.messages = sess.messages ++ ChatMsg.user msg :: suffix) := by
  cases hdec : oracle.decide (sess.messages ++ [ChatMsg.user msg]) with
  | error e =>
    right
    simp only [runChatTurn, hdec]
    exact ⟨by simp, _, [], lookupS_insertS_self st sid _, rfl, rfl, by simp⟩
  | ok resp =>
    by_cases hemp : resp.toolCalls.isEmpty
    · right
      simp only [runChatTurn, hdec, if_pos hemp]
      exact ⟨by simp, _, [ChatMsg.assistant resp.content],
        lookupS_insertS_self st sid _, rfl, rfl, by simp⟩
    · cases hloop : chatToolLoop db sess.customer_info sess.project_start
          (sess.messages ++ [ChatMsg.user msg]
            ++ [ChatMsg.assistantRaw resp.content resp.toolCalls])
          resp.toolCalls with
      | errored m e =>
        right
        obtain ⟨t, ht⟩ := (chatToolLoop_extends db sess.customer_info
          sess.project_start resp.toolCalls _).2 m e hloop
        simp only [runChatTurn, hdec, if_neg hemp, hloop]
        refine ⟨by simp, _,
          ChatMsg.assistantRaw resp.content resp.toolCalls :: t,
          lookupS_insertS_self st sid _, rfl, rfl, ?_⟩
        rw [ht]
        simp
      | offerMade off m =>
        left
        simp only [runChatTurn, hdec, if_neg hemp, hloop]
        exact ⟨⟨off, rfl⟩, lookupS_eraseS_self _ sid⟩
      | done msgs2 =>
        obtain ⟨t, ht⟩ := (chatToolLoop_extends db sess.customer_info
          sess.project_start resp.toolCalls _).1 msgs2 hloop
        cases hf : oracle.followUp msgs2 with
        | error e =>
          right
          simp only [runChatTurn, hdec, if_neg hemp, hloop, hf]
          refine ⟨by simp, _,
            ChatMsg.assistantRaw resp.content resp.toolCalls :: t,
            lookupS_insertS_self st sid _, rfl, rfl, ?_⟩
          rw [ht]
          simp
        | ok content =>
          right
          simp only [runChatTurn, hdec, if_neg hemp, hloop, hf]
          refine ⟨by simp, _,
            ChatMsg.assistantRaw resp.content resp.toolCalls ::
              (t ++ [ChatMsg.assistant content]),
            lookupS_insertS_self st sid _, rfl, rfl, ?_⟩
          rw [ht]
          simp

theorem runChatTurn_store_ne (db : Option InventorySearch) (st : SessionStore)
    (sid : String) (sess : Session) (msg : String) (oracle : ChatOracle)
    (k : String) (hk : k ≠ sid) :
    lookupS (runChatTurn db st sid sess msg oracle).store k = lookupS st k := by
  cases hdec : oracle.decide (sess.messages ++ [ChatMsg.user msg]) with
  | error e =>
    simp only [runChatTurn, hdec]
    exact lookupS_insertS_ne st sid k _ hk
  | ok resp =>
    by_cases hemp : resp.toolCalls.isEmpty
    · simp only [runChatTurn, hdec, if_pos hemp]
      exact lookupS_insertS_ne st sid k _ hk
    · cases hloop : chatToolLoop db sess.customer_info sess.project_start
          (sess.messages ++ [ChatMsg.user msg]
            ++ [ChatMsg.assistantRaw resp.content resp.toolCalls])
          resp.toolCalls with
      | errored m e =>
        simp only [runChatTurn, hdec, if_neg hemp, hloop]
        exact lookupS_insertS_ne st sid k _ hk
      | offerMade off m =>
        simp only [runChatTurn, hdec, if_neg hemp, hloop]
        rw [lookupS_eraseS_ne _ sid k hk]
        exact lookupS_insertS_ne st sid k _ hk
      | done msgs2 =>
        cases hf : oracle.followUp msgs2 with
        | error e =>
          simp only [runChatTurn, hdec, if_neg hemp, hloop, hf]
          exact lookupS_insertS_ne st sid k _ hk
        | ok content =>
          simp only [runChatTurn, hdec, if_neg hemp, hloop, hf]
          exact lookupS_insertS_ne st sid k _ hk

theorem runChatTurn_calls_le (db : Option InventorySearch) (st : SessionStore)
    (sid : String) (sess : Session) (msg : String) (oracle : ChatOracle) :
    (runChatTurn db st sid sess msg oracle).modelCalls ≤ 2 := by
  cases hdec : oracle.decide (sess.messages ++ [ChatMsg.user msg]) with
  | error e => simp only [runChatTurn, hdec]; omega
  | ok resp =>
    by_cases hemp : resp.toolCalls.isEmpty
    · simp only [runChatTurn, hdec, if_pos hemp]; omega
    · cases hloop : chatToolLoop db sess.customer_info sess.project_start
          (sess.messages ++ [ChatMsg.user msg]
            ++ [ChatMsg.assistantRaw resp.content resp.toolCalls])
          resp.toolCalls with
      | errored m e => simp only [runChatTurn, hdec, if_neg hemp, hloop]; omega
      | offerMade off m => simp only [runChatTurn, hdec, if_neg hemp, hloop]; omega
      | done msgs2 =>
        cases hf : oracle.followUp msgs2 with
        | error e => simp only [runChatTurn, hdec, if_neg hemp, hloop, hf]; omega
        | ok content => simp only [runChatTurn, hdec, if_neg hemp, hloop, hf]; omega

theorem chat_no_profile_raises (db : Option InventorySearch) (st : SessionStore)
    (sid msg : String) (ps : Option String) (oracle : ChatOracle)
    (hnot : lookupS st sid = none) :
    chat_for_offer db st sid msg none ps oracle =
      { result := .error sessionNotFoundError, store := st, modelCalls := 0 } := by
  simp [chat_for_offer, chatBootstrap, hnot, dictFalsy, sessionNotFoundError]

/-- C1: for every valid offer request and every behaviour of the model
provider and the storage collaborator, generate_offer either returns a
Finaloffer (a value of the schema type, hence with every required field
populated) whose price satisfies Total = Materials + Labor, or raises
the single wrapped generation failure; it never returns an incomplete
offer.  On this code the left branch is what always happens: every
execution raises (see app_generate_offer_never_returns). -/
theorem generate_offer_total_or_raises (db : Option InventorySearch)
    (r : OfferRequest) (oracle : GenOracle) :
    (∃ e, (generate_offer db r oracle).1 = Except.error e)
    ∨ (∃ off : Finaloffer, (generate_offer db r oracle).1 = Except.ok off
        ∧ off.price.Total = off.price.Materials + off.price.Labor) :=
  Or.inl (generate_offer_raises db r oracle)

/-- C4: the transcript sent to the model by generate_offer (system
prompt plus user turn) is a function of the non-PII request fields
only, so two requests agreeing on project_start, select_task,
explaination and user_id produce identical model input regardless of
customer_name, phone_number or address; and whenever generate_offer
returns an offer, its customer identity fields are the ones of the
request, never model output. -/
theorem generate_offer_pii_noninterference :
    (∀ r1 r2 : OfferRequest, r1.project_start = r2.project_start →
      r1.select_task = r2.select_task → r1.explaination = r2.explaination →
      r1.user_id = r2.user_id → genMessages r1 = genMessages r2)
    ∧ (∀ (db : Option InventorySearch) (r : OfferRequest) (oracle : GenOracle)
        (off : Finaloffer), (generate_offer db r oracle).1 = Except.ok off →
        off.customer_name = r.customer_name
        ∧ off.phone_number = r.phone_number
        ∧ off.address = r.address) := by
  constructor
  · intro r1 r2 h1 h2 h3 h4
    simp [genMessages, genUserInput, h1, h2, h3, h4]
  · intro db r oracle off h
    obtain ⟨e, he⟩ := generate_offer_raises db r oracle
    rw [he] at h
    exact absurd h (by simp)

/-- C4 witness: two requests with the same project but different
customer identities give the model identical transcripts. -/
theorem generate_offer_pii_noninterference_witness :
    genMessages
      { customer_name := "Jane Doe", phone_number := "555-1234",
        address := "1 A St", project_start := "2025-03-01",
        select_task := "kitchen remodel", explaination := "30 sqm, mid-range finish",
        user_id := "u1" } =
    genMessages
      { customer_name := "John Roe", phone_number := "555-9876",
        address := "9 B Ave", project_start := "2025-03-01",
        select_task := "kitchen remodel", explaination := "30 sqm, mid-range finish",
        user_id := "u1" } :=
  generate_offer_pii_noninterference.1 _ _ rfl rfl rfl rfl

/-- C10: in the app variant, generate_offer never returns an offer:
app.schema defines no GeneratedOfferContent (so the module-level import
of src/app/generator.py fails), the offerRequest model declares neither
customer_email nor resource (so the local merge step raises
AttributeError on both reads), and consequently every execution of the
generate_offer body terminates with an exception, for every request and
every model and storage behaviour. -/
theorem app_generate_offer_never_returns :
    "GeneratedOfferContent" ∉ appSchemaDefinedClasses
    ∧ "customer_email" ∉ offerRequestFieldNames
    ∧ "resource" ∉ offerRequestFieldNames
    ∧ (∀ r : OfferRequest,
        offerRequestAttr r "customer_email" =
          Except.error "AttributeError: offerRequest object has no attribute customer_email"
        ∧ offerRequestAttr r "resource" =
          Except.error "AttributeError: offerRequest object has no attribute resource")
    ∧ (∀ (db : Option InventorySearch) (r : OfferRequest) (oracle : GenOracle),
        ∃ e, (generate_offer db r oracle).1 = Except.error e) :=
  ⟨by decide, by decide, by decide, fun r => ⟨rfl, rfl⟩, generate_offer_raises⟩

/-! ## Claim theorems: the materials_ordered toggle -/

theorem lookupRow_updateRow_self (tbl : OffersTable) (oid : String)
    (flag : Bool) (now : Nat) (row : OfferRow) (h : lookupRow tbl oid = some row) :
    lookupRow (updateRow tbl oid flag now) oid =
      some { materials_ordered := flag, updated_at := now } := by
  induction tbl with
  | nil => simp [lookupRow] at h
  | cons p rest ih =>
    obtain ⟨k, v⟩ := p
    dsimp only [updateRow]
    by_cases hk : k = oid
    · rw [if_pos hk]
      dsimp only [lookupRow]
      rw [if_pos hk]
    · rw [if_neg hk]
      dsimp only [lookupRow]
      rw [if_neg hk]
      have h2 : lookupRow rest oid = some row := by
        simpa [lookupRow, hk] using h
      exact ih h2

theorem lookupRow_updateRow_ne (tbl : OffersTable) (oid k : String)
    (flag : Bool) (now : Nat) (h : k ≠ oid) :
    lookupRow (updateRow tbl oid flag now) k = lookupRow tbl k := by
  induction tbl with
  | nil => simp [updateRow, lookupRow]
  | cons p rest ih =>
    obtain ⟨k', v⟩ := p
    dsimp only [updateRow]
    by_cases hk : k' = oid
    · rw [if_pos hk]
      dsimp only [lookupRow]
      have hne : ¬k' = k := by
        rw [hk]
        exact fun hh => h hh.symm
      rw [if_neg hne, if_neg hne]
      exact ih
    · rw [if_neg hk]
      dsimp only [lookupRow]
      by_cases hk2 : k' = k
      · rw [if_pos hk2, if_pos hk2]
      · rw [if_neg hk2, if_neg hk2]
        exact ih

/-- C9: toggle_materials_ordered is an involution on the stored flag:
on an existing offer one call stores the negated flag and returns the
success payload carrying the offer id and the new flag, leaving every
other offer untouched, and a second call restores the original flag;
on a missing offer id it raises and leaves the table unchanged. -/
theorem toggle_materials_ordered_involution (tbl : OffersTable)
    (now now2 : Nat) (oid : String) :
    (∀ row : OfferRow, lookupRow tbl oid = some row →
      (toggle_materials_ordered tbl now oid).2 =
        Except.ok { success := true, offer_id := oid,
                    materials_ordered := !row.materials_ordered }
      ∧ lookupRow (toggle_materials_ordered tbl now oid).1 oid =
          some { materials_ordered := !row.materials_ordered, updated_at := now }
      ∧ (∀ k, k ≠ oid →
          lookupRow (toggle_materials_ordered tbl now oid).1 k = lookupRow tbl k)
      ∧ (toggle_materials_ordered (toggle_materials_ordered tbl now oid).1 now2 oid).2 =
          Except.ok { success := true, offer_id := oid,
                      materials_ordered := row.materials_ordered }
      ∧ lookupRow
          (toggle_materials_ordered (toggle_materials_ordered tbl now oid).1 now2 oid).1
          oid = some { materials_ordered := row.materials_ordered, updated_at := now2 })
    ∧ (lookupRow tbl oid = none →
        toggle_materials_ordered tbl now oid =
          (tbl, Except.error "Error toggling materials_ordered status: offer not found")) := by
  have step : ∀ (t : OffersTable) (n : Nat) (row : OfferRow),
      lookupRow t oid = some row →
      toggle_materials_ordered t n oid =
        (updateRow t oid (!row.materials_ordered) n,
         Except.ok { success := true, offer_id := oid,
                     materials_ordered := !row.materials_ordered }) := by
    intro t n row h
    simp [toggle_materials_ordered, h]
  constructor
  · intro row h
    have heq := step tbl now row h
    have h1 : lookupRow (toggle_materials_ordered tbl now oid).1 oid =
        some { materials_ordered := !row.materials_ordered, updated_at := now } := by
      rw [heq]
      exact lookupRow_updateRow_self tbl oid _ now row h
    have heq2 := step (toggle_materials_ordered tbl now oid).1 now2 _ h1
    refine ⟨by rw [heq], h1, ?_, ?_, ?_⟩
    · intro k hk
      rw [heq]
      exact lookupRow_updateRow_ne tbl oid k _ now hk
    · rw [heq2]
      simp
    · rw [heq2, Bool.not_not]
      simpa using lookupRow_updateRow_self _ oid _ now2 _ h1
  · intro h
    simp [toggle_materials_ordered, h]

/-- C9 witness: the theorem applied to a one-row table with the flag
initially false, plus the missing-id branch. -/
theorem toggle_materials_ordered_involution_witness :
    (toggle_materials_ordered [("o1", { materials_ordered := false, updated_at := 0 })] 5 "o1").2 =
      Except.ok { success := true, offer_id := "o1", materials_ordered := true }
    ∧ toggle_materials_ordered [("o1", { materials_ordered := false, updated_at := 0 })] 5 "o2" =
        ([("o1", { materials_ordered := false, updated_at := 0 })],
         Except.error "Error toggling materials_ordered status: offer not found") :=
  ⟨((toggle_materials_ordered_involution
      [("o1", { materials_ordered := false, updated_at := 0 })] 5 7 "o1").1
      { materials_ordered := false, updated_at := 0 } rfl).1,
   (toggle_materials_ordered_involution
      [("o1", { materials_ordered := false, updated_at := 0 })] 5 7 "o2").2 rfl⟩

/-! ## Concrete scenarios used by the chat claims -/

/-- A model that always asks a clarifying question (no tool calls). -/
def askOracle : ChatOracle :=
  { decide := fun _ => .ok ⟨some "What size is the area?", []⟩,
    followUp := fun _ => .ok none }

/-- A model whose decision call fails with a transport error. -/
def failOracle : ChatOracle :=
  { decide := fun _ => .error "connection reset",
    followUp := fun _ => .ok none }

/-- Structured generate_final_offer arguments. -/
def offerArgs0 : FinalOfferArgs :=
  { task_description := some "Renovate the bathroom",
    bill_of_materials := some [[("category", "Tile"), ("material", "Ceramic"),
      ("price", "10"), ("description", "Floor tile"), ("unit", "sqm"),
      ("quantity", "30")]],
    time := some "2 weeks",
    materials_cost := some 100, labor_cost := some 50, total_cost := some 150 }

/-- A stored customer profile that includes a customer_email entry. -/
def profile0 : List (String × String) :=
  [("customer_name", "Jane Doe"), ("phone_number", "555-1234"),
   ("address", "1 A St"), ("customer_email", "jane@example.com"),
   ("resource", "Bob")]

/-- The decision-call response that requests generate_final_offer. -/
def offerResponse : ModelResponse :=
  { content := none,
    toolCalls := [{ id := "call1", fn := .finalOfferCall (.ok offerArgs0) }] }

/-- A model that immediately calls generate_final_offer. -/
def offerOracle : ChatOracle :=
  { decide := fun _ => .ok offerResponse,
    followUp := fun _ => .ok none }

/-- A store holding one fresh session for id s1. -/
def store0 : SessionStore := [("s1", freshSession profile0 (some "2025-03-01"))]

/-- A session with an ongoing transcript. -/
def sess1 : Session :=
  { messages := [ChatMsg.system chat_system_prompt, ChatMsg.user "hi",
      ChatMsg.assistant (some "What size is the area?")],
    customer_info := [("customer_name", "Jane Doe")],
    project_start := some "2025-03-01" }

/-- A store holding sess1 under id s1. -/
def store1 : SessionStore := [("s1", sess1)]

/-! ## Claim theorems: chat session lifecycle -/

/-- C2 counterexample: a call with an unknown session id and a supplied
but empty customer profile dict raises the session-not-found error and
creates no session (Python treats the empty dict as falsy), contrary to
the claim that a call with a customer profile creates exactly one new
session. -/
theorem chat_empty_profile_no_session :
    chat_for_offer none [] "s1" "hello" (some []) none askOracle =
      { result := .error sessionNotFoundError, store := [], modelCalls := 0 } := rfl

/-- C2 (amended): with an unknown session id, a call with no customer
profile raises the session-not-found error leaving the store untouched;
a call with a non-empty customer profile stores exactly one fresh
session keyed by the id and touches no other key; and after any turn
that returns a final offer the session is deleted, so a further call
with that id and no profile raises the session-not-found error. -/
theorem chat_session_lifecycle (db : Option InventorySearch) (st : SessionStore)
    (sid msg : String) (ps : Option String) (oracle : ChatOracle)
    (hnot : lookupS st sid = none) :
    chat_for_offer db st sid msg none ps oracle =
      { result := .error sessionNotFoundError, store := st, modelCalls := 0 }
    ∧ (∀ p : List (String × String), p ≠ [] →
        chatBootstrap st sid (some p) ps =
          .ok (insertS st sid (freshSession p ps), freshSession p ps)
        ∧ ∀ k, k ≠ sid →
            lookupS (chat_for_offer db st sid msg (some p) ps oracle).store k =
              lookupS st k)
    ∧ (∀ (st2 : SessionStore) (msg2 : String) (ci2 : Option (List (String × String)))
         (ps2 : Option String) (oracle2 : ChatOracle) (off : Finaloffer),
        (chat_for_offer db st2 sid msg2 ci2 ps2 oracle2).result = .ok (.offer off) →
        lookupS (chat_for_offer db st2 sid msg2 ci2 ps2 oracle2).store sid = none
        ∧ ∀ (msg3 : String) (ps3 : Option String) (oracle3 : ChatOracle),
            chat_for_offer db (chat_for_offer db st2 sid msg2 ci2 ps2 oracle2).store
                sid msg3 none ps3 oracle3 =
              { result := .error sessionNotFoundError,
                store := (chat_for_offer db st2 sid msg2 ci2 ps2 oracle2).store,
                modelCalls := 0 }) := by
  refine ⟨chat_no_profile_raises db st sid msg ps oracle hnot, ?_, ?_⟩
  · intro p hp
    have hfalsy : dictFalsy (some p) = false := by
      cases p with
      | nil => exact absurd rfl hp
      | cons a l => rfl
    have hboot : chatBootstrap st sid (some p) ps =
        .ok (insertS st sid (freshSession p ps), freshSession p ps) := by
      simp [chatBootstrap, hnot, hfalsy]
    refine ⟨hboot, fun k hk => ?_⟩
    simp only [chat_for_offer, hboot]
    rw [show ({ runChatTurn db (insertS st sid (freshSession p ps)) sid
        (freshSession p ps) msg oracle with
        result := (runChatTurn db (insertS st sid (freshSession p ps)) sid
          (freshSession p ps) msg oracle).result.mapError
            (fun e => "Error in chat for offer: " ++ e) } : TurnOut).store =
      (runChatTurn db (insertS st sid (freshSession p ps)) sid
        (freshSession p ps) msg oracle).store from rfl]
    rw [runChatTurn_store_ne db _ sid (freshSession p ps) msg oracle k hk]
    exact lookupS_insertS_ne st sid k _ hk
  · intro st2 msg2 ci2 ps2 oracle2 off hoff
    cases hb2 : chatBootstrap st2 sid ci2 ps2 with
    | error e =>
      simp only [chat_for_offer, hb2] at hoff
      exact absurd hoff (by simp)
    | ok pr =>
      obtain ⟨st1, sess⟩ := pr
      simp only [chat_for_offer, hb2] at hoff ⊢
      rw [mapError_ok_iff] at hoff
      rcases runChatTurn_spec db st1 sid sess msg2 oracle2 with
        ⟨_, hnone⟩ | ⟨hne, _⟩
      · exact ⟨hnone, fun msg3 ps3 oracle3 =>
          chat_no_profile_raises db _ sid msg3 ps3 oracle3 hnone⟩
      · exact absurd hoff (hne off)

/-- C2 witness: the amended theorem applied to the empty store. -/
theorem chat_session_lifecycle_witness :
    chat_for_offer none [] "s1" "hi" none none askOracle =
      { result := .error sessionNotFoundError, store := [], modelCalls := 0 } :=
  (chat_session_lifecycle none [] "s1" "hi" none askOracle rfl).1

/-- C3: evaluation of a turn in which the model calls
generate_final_offer on a session whose stored profile carries a
customer_email entry.  The returned value is the offer dict with
status Pending, materials_ordered false, customer_name, phone_number,
address and resource taken from the stored profile, project_start equal
to the stored project start, and the session deleted — but the
Finaloffer model of src/app/schema.py declares no customer_email field,
so the customer_email value passed by src/app/generator.py line 430 is
silently dropped by pydantic and the offer carries no customer email at
all, although the storage layer (src/app/database.py, offers table)
has a customer_email column it expects the offer to fill. -/
theorem chat_offer_drops_customer_email :
    chat_for_offer none store0 "s1" "go ahead" none none offerOracle =
      { result := .ok (.offer
          { customer_name := "Jane Doe", phone_number := "555-1234",
            address := "1 A St", task_description := "Renovate the bathroom",
            bill_of_materials :=
              [⟨"Tile", "Ceramic", "10", "Floor tile", "sqm", "30"⟩],
            time := "2 weeks", resource := "Bob", status := .Pending,
            price := { Materials := 100, Labor := 50, Total := 150 },
            project_start := "2025-03-01", materials_ordered := false }),
        store := [], modelCalls := 1 }
    ∧ "customer_email" ∉ finalofferFieldNames := ⟨rfl, by decide⟩

/-- C5 counterexample: a turn that fails at the decision call leaves
the appended user message in the caller-visible session transcript,
so the transcript is not left exactly as it was before the turn. -/
theorem chat_error_turn_mutates_transcript :
    (chat_for_offer none store1 "s1" "30 sqm" none none failOracle).result =
      .error "Error in chat for offer: connection reset"
    ∧ (lookupS (chat_for_offer none store1 "s1" "30 sqm" none none failOracle).store
        "s1").map Session.messages =
        some (sess1.messages ++ [ChatMsg.user "30 sqm"])
    ∧ sess1.messages ++ [ChatMsg.user "30 sqm"] ≠ sess1.messages := by
  refine ⟨rfl, rfl, fun h => ?_⟩
  have hlen := congrArg List.length h
  simp at hlen

/-- C5 (amended): a chat turn on an existing session that terminates
with an error leaves the caller-visible transcript extended by the
messages appended before the failure point — always at least the
incoming user message — rather than restored to its pre-turn value;
the per-turn transcript mutation is not atomic. -/
theorem chat_error_turn_transcript (db : Option InventorySearch)
    (st : SessionStore) (sid : String) (sess : Session) (msg : String)
    (ci : Option (List (String × String))) (ps : Option String)
    (oracle : ChatOracle) (e : String)
    (hfound : lookupS st sid = some sess)
    (herr : (chat_for_offer db st sid msg ci ps oracle).result = .error e) :
    ∃ s suffix,
      lookupS (chat_for_offer db st sid msg ci ps oracle).store sid = some s
      ∧ s.messages = sess.messages ++ ChatMsg.user msg :: suffix := by
  have hboot : chatBootstrap st sid ci ps = .ok (st, sess) := by
    simp [chatBootstrap, hfound]
  simp only [chat_for_offer, hboot] at herr ⊢
  rcases runChatTurn_spec db st sid sess msg oracle with
    ⟨⟨off, hoff⟩, _⟩ | ⟨_, s, suffix, hs, _, _, hm⟩
  · rw [hoff] at herr
    simp [Except.mapError] at herr
  · exact ⟨s, suffix, hs, hm⟩

/-- C5 witness: the amended theorem applied to the failing turn. -/
theorem chat_error_turn_transcript_witness :
    ∃ s suffix,
      lookupS (chat_for_offer none store1 "s1" "30 sqm" none none failOracle).store
        "s1" = some s
      ∧ s.messages = sess1.messages ++ ChatMsg.user "30 sqm" :: suffix :=
  chat_error_turn_transcript none store1 "s1" sess1 "30 sqm" none none failOracle
    "Error in chat for offer: connection reset" rfl rfl

/-! ## Claim theorems: bounded model calls -/

theorem genToolLoop_ok (db : Option InventorySearch) (calls : List ToolCall)
    (h : ∀ c ∈ calls, ∀ e, c.fn ≠ ToolFn.inventory (.error e)) :
    ∀ msgs, ∃ m, genToolLoop db msgs calls = .ok m := by
  induction calls with
  | nil => exact fun msgs => ⟨msgs, rfl⟩
  | cons c rest ih =>
    intro msgs
    have hrest : ∀ c ∈ rest, ∀ e, c.fn ≠ ToolFn.inventory (.error e) :=
      fun c hc => h c (List.mem_cons_of_mem _ hc)
    obtain ⟨cid, fn⟩ := c
    cases fn with
    | inventory args =>
      cases args with
      | error e =>
        exact absurd rfl (h ⟨cid, .inventory (.error e)⟩ (List.mem_cons_self _ _) e)
      | ok q => simpa [genToolLoop] using ih hrest _
    | finalOfferCall args => simpa [genToolLoop] using ih hrest _

theorem runChatTurn_two_calls (db : Option InventorySearch) (st : SessionStore)
    (sid : String) (sess : Session) (msg : String) (oracle : ChatOracle)
    (h : (runChatTurn db st sid sess msg oracle).modelCalls = 2) :
    (∀ off, (runChatTurn db st sid sess msg oracle).result ≠ .ok (.offer off))
    ∧ ∃ resp c rest q,
        oracle.decide (sess.messages ++ [ChatMsg.user msg]) = .ok resp
        ∧ resp.toolCalls = c :: rest
        ∧ c.fn = ToolFn.inventory (.ok q) := by
  cases hdec : oracle.decide (sess.messages ++ [ChatMsg.user msg]) with
  | error e =>
    exfalso
    simp only [runChatTurn, hdec] at h
    exact absurd h (by decide)
  | ok resp =>
    by_cases hemp : resp.toolCalls.isEmpty
    · exfalso
      simp only [runChatTurn, hdec, if_pos hemp] at h
      exact absurd h (by decide)
    · cases hloop : chatToolLoop db sess.customer_info sess.project_start
          (sess.messages ++ [ChatMsg.user msg]
            ++ [ChatMsg.assistantRaw resp.content resp.toolCalls])
          resp.toolCalls with
      | errored m e =>
        exfalso
        simp only [runChatTurn, hdec, if_neg hemp, hloop] at h
        exact absurd h (by decide)
      | offerMade off m =>
        exfalso
        simp only [runChatTurn, hdec, if_neg hemp, hloop] at h
        exact absurd h (by decide)
      | done msgs2 =>
        obtain ⟨c, rest, hcr⟩ : ∃ c rest, resp.toolCalls = c :: rest := by
          cases hcc : resp.toolCalls with
          | nil => rw [hcc] at hemp; simp at hemp
          | cons c rest => exact ⟨c, rest, rfl⟩
        obtain ⟨q, hq⟩ := chatToolLoop_done_head db sess.customer_info
          sess.project_start _ c rest msgs2 (by rw [← hcr]; exact hloop)
        refine ⟨?_, resp, c, rest, q, rfl, hcr, hq⟩
        intro off
        simp only [runChatTurn, hdec, if_neg hemp, hloop]
        cases hf : oracle.followUp msgs2 <;> simp

/-- The request of the concrete one-shot scenario. -/
def reqC8 : OfferRequest :=
  { customer_name := "Jane Doe", phone_number := "555-1234", address := "1 A St",
    project_start := "2025-03-01", select_task := "kitchen remodel",
    explaination := "30 sqm, mid-range finish", user_id := "u1" }

/-- A provider whose first (tool-enabled) call fails with a transport
error; the schema-constrained call is never reached. -/
def failGenOracle : GenOracle :=
  { toolPhase := fun _ => .error "connection error",
    parsePhase := fun _ => .error "not reached" }

/-- A provider whose tool-enabled call succeeds with no tool calls. -/
def directGenOracle : GenOracle :=
  { toolPhase := fun _ => .ok ⟨some "Here is the offer", []⟩,
    parsePhase := fun _ => .error "schema validation failed" }

/-- C8 counterexample: an execution of generate_offer whose first model
call fails performs exactly one model call, not two, so the claim that
every execution performs exactly two model calls is false. -/
theorem generate_offer_single_call :
    (generate_offer none reqC8 failGenOracle).2 = 1
    ∧ (generate_offer none reqC8 failGenOracle).2 ≠ 2 :=
  ⟨rfl, by decide⟩

/-- C8 (amended): every chat_for_offer execution performs at most two
model calls, and performs two only when the decision call succeeded
with a tool-call list headed by a get_inventory_data call whose
arguments parsed and the turn produced no final offer (the follow-up
call case); every generate_offer execution performs at most two model
calls, and exactly two (one tool-enabled, one schema-constrained)
whenever the first model call succeeds and the tool arguments parse;
neither operation loops or recurses over further model calls. -/
theorem model_calls_bounded :
    (∀ (db : Option InventorySearch) (st : SessionStore) (sid msg : String)
       (ci : Option (List (String × String))) (ps : Option String)
       (oracle : ChatOracle),
      (chat_for_offer db st sid msg ci ps oracle).modelCalls ≤ 2
      ∧ ((chat_for_offer db st sid msg ci ps oracle).modelCalls = 2 →
          (∀ off, (chat_for_offer db st sid msg ci ps oracle).result ≠
            Except.ok (ChatResult.offer off))
          ∧ ∃ stp resp c rest q,
              chatBootstrap st sid ci ps = .ok stp
              ∧ oracle.decide (stp.2.messages ++ [ChatMsg.user msg]) = .ok resp
              ∧ resp.toolCalls = c :: rest
              ∧ c.fn = ToolFn.inventory (.ok q)))
    ∧ (∀ (db : Option InventorySearch) (r : OfferRequest) (oracle : GenOracle),
        (generate_offer db r oracle).2 ≤ 2
        ∧ (∀ resp, oracle.toolPhase (genMessages r) = .ok resp →
            (∀ c ∈ resp.toolCalls, ∀ e, c.fn ≠ ToolFn.inventory (.error e)) →
            (generate_offer db r oracle).2 = 2)) := by
  constructor
  · intro db st sid msg ci ps oracle
    cases hb : chatBootstrap st sid ci ps with
    | error e =>
      have hch : chat_for_offer db st sid msg ci ps oracle =
          { result := .error ("Error in chat for offer: " ++ e),
            store := st, modelCalls := 0 } := by
        simp [chat_for_offer, hb]
      rw [hch]
      exact ⟨Nat.zero_le 2, fun h2 => by simp at h2⟩
    | ok stp =>
      obtain ⟨st1, sess⟩ := stp
      have hch : chat_for_offer db st sid msg ci ps oracle =
          { runChatTurn db st1 sid sess msg oracle with
            result := (runChatTurn db st1 sid sess msg oracle).result.mapError
              (fun e => "Error in chat for offer: " ++ e) } := by
        simp [chat_for_offer, hb]
      constructor
      · rw [hch]
        exact runChatTurn_calls_le db st1 sid sess msg oracle
      · intro h2
        rw [hch] at h2
        obtain ⟨hne, resp, c, rest, q, hdec, hcr, hq⟩ :=
          runChatTurn_two_calls db st1 sid sess msg oracle h2
        constructor
        · intro off hcon
          rw [hch] at hcon
          rw [show ({ runChatTurn db st1 sid sess msg oracle with
              result := (runChatTurn db st1 sid sess msg oracle).result.mapError
                (fun e => "Error in chat for offer: " ++ e) } : TurnOut).result =
            (runChatTurn db st1 sid sess msg oracle).result.mapError
              (fun e => "Error in chat for offer: " ++ e) from rfl] at hcon
          rw [mapError_ok_iff] at hcon
          exact hne off hcon
        · exact ⟨(st1, sess), resp, c, rest, q, rfl, hdec, hcr, hq⟩
  · intro db r oracle
    constructor
    · unfold generate_offer
      split
      · exact (by decide : (1 : Nat) ≤ 2)
      · split
        · split
          · exact (by decide : (2 : Nat) ≤ 2)
          · exact (by decide : (2 : Nat) ≤ 2)
        · split
          · exact (by decide : (1 : Nat) ≤ 2)
          · split
            · exact (by decide : (2 : Nat) ≤ 2)
            · exact (by decide : (2 : Nat) ≤ 2)
    · intro resp htool hargs
      simp only [generate_offer, htool]
      by_cases hemp : resp.toolCalls.isEmpty
      · rw [if_pos hemp]
        cases hp : oracle.parsePhase (genMessages r) <;> simp [hp]
      · rw [if_neg hemp]
        obtain ⟨m, hm⟩ := genToolLoop_ok db resp.toolCalls hargs
          (genMessages r ++ [ChatMsg.assistantRaw resp.content resp.toolCalls])
        rw [hm]
        cases hp : oracle.parsePhase m <;> simp [hp]

/-- C8 witness: the amended theorem applied to a concrete chat turn and
to a concrete one-shot run whose first call succeeds without tool
calls. -/
theorem model_calls_bounded_witness :
    (chat_for_offer none store1 "s1" "hello" none none askOracle).modelCalls ≤ 2
    ∧ (generate_offer none reqC8 directGenOracle).2 = 2 :=
  ⟨(model_calls_bounded.1 none store1 "s1" "hello" none none askOracle).1,
   (model_calls_bounded.2 none reqC8 directGenOracle).2
     ⟨some "Here is the offer", []⟩ rfl (by simp)⟩

end Veloo
